import Mathlib

/-!
# speedtest client (client.go): a shallow embedding

The Go file `client.go` is embedded function by function.  Effects are made
explicit: every call that leaves the function under study (the response body,
the XML decoder, the server catalogue, the latency probe, `log.Fatalf`) is a
field of a collaborator record that transforms an explicit state, and every
such call is appended to a call log in the order in which the Go code performs
it.  `log.Fatalf` ends the process, so a function that reaches it yields
`Outcome.fatal` and the statements after it are never run.
-/

namespace Speedtest

/-! ## Response layer: `ReadContent`, `ReadXML` -/

/-- Body content, Go `[]byte`. -/
abbrev Bytes := List Nat

/-- Calls that `ReadContent` and `ReadXML` make outside of themselves. -/
inductive RespCall
  | ReadAll
  | Close
  | Unmarshal (content : Bytes)
  deriving DecidableEq, Repr

/-- The `io.ReadCloser` held in `Response.Body`, over a stream state `σ`:
`ReadAll` is `ioutil.ReadAll(resp.Body)` and returns `(content, err)`,
`Close` is `resp.Body.Close()` and returns `cerr`; `none` is a nil error. -/
structure ReadCloser (σ ε : Type) where
  ReadAll : σ → (Bytes × Option ε) × σ
  Close : σ → Option ε × σ

/-- Go `type Response http.Response`; only `Body` is used by this file. -/
structure Response (σ ε : Type) where
  Body : ReadCloser σ ε

/-- A value together with the state and the call log after a call; `κ` is the
type of logged calls. -/
structure Ran (α σ κ : Type) where
  value : α
  state : σ
  calls : List κ

/-- Perform `ioutil.ReadAll(resp.Body)` and log it. -/
def callReadAll {σ ε : Type} (resp : Response σ ε) (s : σ) (log : List RespCall) :
    Ran (Bytes × Option ε) σ RespCall :=
  ⟨(resp.Body.ReadAll s).1, (resp.Body.ReadAll s).2, log ++ [RespCall.ReadAll]⟩

/-- Perform `resp.Body.Close()` and log it. -/
def callClose {σ ε : Type} (resp : Response σ ε) (s : σ) (log : List RespCall) :
    Ran (Option ε) σ RespCall :=
  ⟨(resp.Body.Close s).1, (resp.Body.Close s).2, log ++ [RespCall.Close]⟩

/-- Go `func (resp *Response) ReadContent() ([]byte, error)`.
The first component is the returned slice (`none` is the nil slice), the
second the returned error (`none` is nil). -/
def ReadContent {σ ε : Type} (resp : Response σ ε) (s : σ) (log : List RespCall) :
    Ran (Option Bytes × Option ε) σ RespCall :=
  -- content, err := ioutil.ReadAll(resp.Body)
  let r := callReadAll resp s log
  -- cerr := resp.Body.Close()
  let c := callClose resp r.state r.calls
  match r.value.2 with
  | some err => ⟨(none, some err), c.state, c.calls⟩          -- return nil, err
  | none =>
    match c.value with
    | some cerr => ⟨(some r.value.1, some cerr), c.state, c.calls⟩  -- return content, cerr
    | none => ⟨(some r.value.1, none), c.state, c.calls⟩            -- return content, nil

/-- Go `xml.Unmarshal(content, out)`: decodes into the value `out` points to
and returns an error or nil. -/
structure Decoder (τ ε : Type) where
  Unmarshal : Bytes → τ → Option ε × τ

/-- Result of `ReadXML`: the returned error, the value `out` points to after
the call, the stream state and the call log. -/
structure RanXML (τ σ ε : Type) where
  err : Option ε
  out : τ
  state : σ
  calls : List RespCall

/-- Go `func (resp *Response) ReadXML(out interface{}) error`. -/
def ReadXML {σ τ ε : Type} (xml : Decoder τ ε) (resp : Response σ ε) (out : τ) (s : σ)
    (log : List RespCall) : RanXML τ σ ε :=
  -- content, err := resp.ReadContent()
  let r := ReadContent resp s log
  match r.value.2 with
  | some err => ⟨some err, out, r.state, r.calls⟩               -- return err
  | none =>
    -- return xml.Unmarshal(content, out)
    let content := r.value.1.getD []
    let u := xml.Unmarshal content out
    ⟨u.1, u.2, r.state, r.calls ++ [RespCall.Unmarshal content]⟩

/-- Two consecutive `ReadContent` calls on the same response. -/
def ReadContentTwice {σ ε : Type} (resp : Response σ ε) (s : σ) (log : List RespCall) :
    Ran (Option Bytes × Option ε) σ RespCall :=
  let first := ReadContent resp s log
  ReadContent resp first.state first.calls

/-- Number of `Close` calls in a call log. -/
def closeCount (log : List RespCall) : Nat :=
  log.count RespCall.Close

/-- Whether a call log contains a call of the XML decoder. -/
def decoderCalled : List RespCall → Bool
  | [] => false
  | RespCall.Unmarshal _ :: _ => true
  | _ :: rest => decoderCalled rest

/-- A test double for a response body.  The stream state counts the `Close`
calls received so far; `ReadAll` yields `data` with `readErr`, `Close` yields
`closeErr`. -/
def scriptedBody (data : Bytes) (readErr closeErr : Option String) : Response Nat String :=
  ⟨⟨fun s => ((data, readErr), s), fun s => (closeErr, s + 1)⟩⟩

/-- A test double for the XML decoder: stores the content length in `out` and
fails on empty content. -/
def scriptedDecoder : Decoder Nat String :=
  ⟨fun content out => if content = [] then (some "EOF", out) else (none, content.length)⟩

/-! ## Construction: `NewClient` -/

/-- Modelled from the spec: the `Opts` type is declared outside `client.go`;
these are the fields `client.go` reads (spec §3 ClientConfig: timeout, optional
bound source address, TLS-preference flag, optional explicit endpoint
identifier). -/
structure Opts where
  Timeout : Int
  Interface : String
  Secure : Bool
  Server : Nat
  deriving DecidableEq, Repr

/-- Go `net.IPAddr`; `IP` is `none` for the nil `net.IP`. -/
structure IPAddr where
  IP : Option (List Nat)
  deriving DecidableEq, Repr

/-- Go `net.Dialer`, the fields set by `NewClient`.  `LocalAddr` has the
interface type `net.Addr`: `none` is the nil interface value, `some a` is an
interface value holding the pointer `&a`. -/
structure Dialer where
  Timeout : Int
  KeepAlive : Int
  LocalAddr : Option IPAddr
  deriving DecidableEq, Repr

/-- Go `http.Transport`, the fields set by `NewClient` (`Dial` is the bound
method `dialer.Dial`, represented by its dialer). -/
structure Transport where
  Dial : Dialer
  TLSHandshakeTimeout : Int
  ExpectContinueTimeout : Int
  deriving DecidableEq, Repr

/-- Go `type Client struct`, the fields set by `NewClient`. -/
structure Client where
  Transport : Transport
  Timeout : Int
  opts : Opts
  deriving DecidableEq, Repr

/-- A `log.Fatalf(format, arg)` call: it prints and ends the process. -/
structure Fatalf (α : Type) where
  format : String
  arg : α
  deriving DecidableEq, Repr

/-- How a function that may call `log.Fatalf` ends. -/
inductive Outcome (μ α : Type)
  | returned (value : α)
  | fatal (msg : μ)
  deriving DecidableEq, Repr

/-- Whether the outcome is a `log.Fatalf` exit. -/
def Outcome.isFatal {μ α : Type} : Outcome μ α → Bool
  | Outcome.returned _ => false
  | Outcome.fatal _ => true

/-- Go `func NewClient(opts *Opts) *Client`; `ParseIP` is `net.ParseIP`,
whose result is `none` when the text is not an IP address. -/
def NewClient (ParseIP : String → Option (List Nat)) (opts : Opts) :
    Outcome (Fatalf String) Client :=
  let dialer : Dialer := ⟨opts.Timeout, opts.Timeout, none⟩
  let finish (dialer : Dialer) : Outcome (Fatalf String) Client :=
    let transport : Transport := ⟨dialer, opts.Timeout, opts.Timeout⟩
    Outcome.returned ⟨transport, opts.Timeout, opts⟩
  if opts.Interface.length ≠ 0 then
    -- dialer.LocalAddr = &net.IPAddr{IP: net.ParseIP(opts.Interface)}
    let dialer : Dialer := ⟨dialer.Timeout, dialer.KeepAlive, some ⟨ParseIP opts.Interface⟩⟩
    if dialer.LocalAddr = none then
      Outcome.fatal ⟨"Invalid source IP: %s\n", opts.Interface⟩
    else
      finish dialer
  else
    finish dialer

/-! ## Transport: `NewRequest`, `Get`, `Post` -/

/-- Go `strings.HasPrefix(s, pre)`:
`len(s) >= len(pre) && s[0:len(pre)] == pre`. -/
def HasPrefix (s pre : String) : Bool :=
  decide (pre.data.length ≤ s.data.length) && (s.data.take pre.data.length == pre.data)

/-- The values `runtime.GOOS`, `runtime.GOARCH`, `runtime.Version()` and the
package constant `Version`, all fixed outside `client.go`. -/
structure Build where
  GOOS : String
  GOARCH : String
  GoVersion : String
  Version : String

/-- Calls that `NewRequest`, `Get` and `Post` make outside of themselves;
`ρ` is `*http.Request`, `β` is the `io.Reader` body. -/
inductive HttpCall (ρ β : Type)
  | NewRequest (method : String) (url : String) (body : Option β)
  | HeaderSet (req : ρ) (key : String) (value : String)
  | Do (req : ρ)

/-- The `net/http` operations used by the transport functions, over a network
state `ω`: `NewRequest` is `http.NewRequest`, `HeaderSet` is
`req.Header.Set(key, value)`, `Do` is `client.Client.Do(req)` and returns the
Go pair `(htResp, err)`. -/
structure HTTP (ω ρ β ν ε : Type) where
  NewRequest : String → String → Option β → Except ε ρ
  HeaderSet : ρ → String → String → ρ
  Do : Client → ρ → ω → (Option ν × Option ε) × ω

/-- The `User-Agent` value built in `NewRequest`. -/
def userAgent (b : Build) : String :=
  "Mozilla/5.0 " ++
    ("(" ++ b.GOOS ++ "; U; " ++ b.GOARCH ++ "; en-us)") ++
    ("Go/" ++ b.GoVersion) ++
    ("(KHTML, like Gecko) speedtest-cli/" ++ b.Version)

/-- Go `func (client *Client) NewRequest(method, url, body)`. -/
def NewRequest {ω ρ β ν ε : Type} (h : HTTP ω ρ β ν ε) (b : Build) (client : Client)
    (method : String) (url : String) (body : Option β) (w : ω) (log : List (HttpCall ρ β)) :
    Ran (Except ε ρ) ω (HttpCall ρ β) :=
  let url :=
    if HasPrefix url ":" then
      if client.opts.Secure then "https" ++ url else "http" ++ url
    else url
  -- req, err := http.NewRequest(method, url, body)
  let log := log ++ [HttpCall.NewRequest method url body]
  match h.NewRequest method url body with
  | Except.ok req =>
    -- req.Header.Set("User-Agent", ...)
    ⟨Except.ok (h.HeaderSet req "User-Agent" (userAgent b)), w,
      log ++ [HttpCall.HeaderSet req "User-Agent" (userAgent b)]⟩
  | Except.error err => ⟨Except.error err, w, log⟩

/-- Perform `client.Client.Do(req)` and log it. -/
def callDo {ω ρ β ν ε : Type} (h : HTTP ω ρ β ν ε) (client : Client) (req : ρ) (w : ω)
    (log : List (HttpCall ρ β)) : Ran (Option ν × Option ε) ω (HttpCall ρ β) :=
  ⟨(h.Do client req w).1, (h.Do client req w).2, log ++ [HttpCall.Do req]⟩

/-- Go `func (client *Client) Get(url string) (resp *Response, err error)`. -/
def Get {ω ρ β ν ε : Type} (h : HTTP ω ρ β ν ε) (b : Build) (client : Client)
    (url : String) (w : ω) (log : List (HttpCall ρ β)) :
    Ran (Option ν × Option ε) ω (HttpCall ρ β) :=
  let r := NewRequest h b client "GET" url none w log
  match r.value with
  | Except.error err => ⟨(none, some err), r.state, r.calls⟩
  | Except.ok req =>
    let d := callDo h client req r.state r.calls
    match d.value.2 with
    | some err => ⟨(none, some err), d.state, d.calls⟩
    | none => ⟨(d.value.1, none), d.state, d.calls⟩

/-- Go `func (client *Client) Post(url, bodyType string, body io.Reader)`. -/
def Post {ω ρ β ν ε : Type} (h : HTTP ω ρ β ν ε) (b : Build) (client : Client)
    (url : String) (bodyType : String) (body : Option β) (w : ω)
    (log : List (HttpCall ρ β)) : Ran (Option ν × Option ε) ω (HttpCall ρ β) :=
  let r := NewRequest h b client "POST" url body w log
  match r.value with
  | Except.error err => ⟨(none, some err), r.state, r.calls⟩
  | Except.ok req =>
    -- req.Header.Set("Content-Type", bodyType)
    let req2 := h.HeaderSet req "Content-Type" bodyType
    let d := callDo h client req2 r.state (r.calls ++ [HttpCall.HeaderSet req "Content-Type" bodyType])
    ⟨d.value, d.state, d.calls⟩

/-- The URL of every `http.NewRequest` call in a call log, in order. -/
def requestedURLs {ρ β : Type} : List (HttpCall ρ β) → List String
  | [] => []
  | HttpCall.NewRequest _ url _ :: rest => url :: requestedURLs rest
  | _ :: rest => requestedURLs rest

/-- The request of every `Do` call in a call log, in order. -/
def dispatched {ρ β : Type} : List (HttpCall ρ β) → List ρ
  | [] => []
  | HttpCall.Do req :: rest => req :: dispatched rest
  | _ :: rest => dispatched rest

/-- A request as a plain record, for the test double below. -/
structure PlainRequest where
  Method : String
  URL : String
  Header : List (String × String)
  deriving DecidableEq, Repr

/-- A test double for `net/http`: `NewRequest` accepts every URL but the empty
one, `HeaderSet` appends the header, `Do` answers with the request URL and
appends that URL to the network state, which lists the URLs dispatched so
far. -/
def plainHTTP : HTTP (List String) PlainRequest Unit String String :=
  ⟨fun method url _ =>
      if url = "" then Except.error "empty url" else Except.ok ⟨method, url, []⟩,
    fun req key value => ⟨req.Method, req.URL, req.Header ++ [(key, value)]⟩,
    fun _ req w => ((some req.URL, none), w ++ [req.URL])⟩

/-- Build values for the test double. -/
def plainBuild : Build :=
  ⟨"linux", "amd64", "go1.20", "1.0"⟩

/-- A client as `NewClient` builds it, for a given `Secure` flag. -/
def plainClient (secure : Bool) : Client :=
  ⟨⟨⟨10, 10, none⟩, 10, 10⟩, 10, ⟨10, "", secure, 0⟩⟩

/-! ## Selection: `SelectServer` -/

/-- Calls that `SelectServer` makes outside of itself; `S` is `*Servers`,
`P` is `*Server`. -/
inductive Call (S P : Type)
  | AllServers
  | ClosestServers
  | Find (servers : S) (id : Nat)
  | MeasureLatency (server : P) (times : Int) (errorLatency : Int)
  | MeasureLatencies (servers : S) (times : Int) (errorLatency : Int)
  | First (servers : S)
  deriving DecidableEq, Repr

/-- The catalogue and probe operations that `SelectServer` calls and that are
declared outside `client.go`, taken as parameters over a world state `ω`
(network and the servers' mutable latency fields): `client.AllServers()`,
`client.ClosestServers()`, `servers.Find(id)`, `server.MeasureLatency(times,
errorLatency)`, `servers.MeasureLatencies(times, errorLatency)`,
`servers.First()`, and the constants `DefaultLatencyMeasureTimes` and
`DefaultErrorLatency`.  A `*Server` result is `none` for nil. -/
structure Catalog (ω S P ε : Type) where
  AllServers : ω → Except ε S × ω
  ClosestServers : ω → Except ε S × ω
  Find : S → Nat → ω → Option P × ω
  MeasureLatency : P → Int → Int → ω → Int × ω
  MeasureLatencies : S → Int → Int → ω → S × ω
  First : S → ω → Option P × ω
  DefaultLatencyMeasureTimes : Int
  DefaultErrorLatency : Int

/-- Perform `client.AllServers()` and log it. -/
def callAllServers {ω S P ε : Type} (cat : Catalog ω S P ε) (w : ω) (log : List (Call S P)) :
    Ran (Except ε S) ω (Call S P) :=
  ⟨(cat.AllServers w).1, (cat.AllServers w).2, log ++ [Call.AllServers]⟩

/-- Perform `client.ClosestServers()` and log it. -/
def callClosestServers {ω S P ε : Type} (cat : Catalog ω S P ε) (w : ω)
    (log : List (Call S P)) : Ran (Except ε S) ω (Call S P) :=
  ⟨(cat.ClosestServers w).1, (cat.ClosestServers w).2, log ++ [Call.ClosestServers]⟩

/-- Perform `servers.Find(id)` and log it. -/
def callFind {ω S P ε : Type} (cat : Catalog ω S P ε) (servers : S) (id : Nat) (w : ω)
    (log : List (Call S P)) : Ran (Option P) ω (Call S P) :=
  ⟨(cat.Find servers id w).1, (cat.Find servers id w).2, log ++ [Call.Find servers id]⟩

/-- Perform `server.MeasureLatency(times, errorLatency)` and log it. -/
def callMeasureLatency {ω S P ε : Type} (cat : Catalog ω S P ε) (server : P)
    (times errorLatency : Int) (w : ω) (log : List (Call S P)) : Ran Int ω (Call S P) :=
  ⟨(cat.MeasureLatency server times errorLatency w).1,
    (cat.MeasureLatency server times errorLatency w).2,
    log ++ [Call.MeasureLatency server times errorLatency]⟩

/-- Perform `servers.MeasureLatencies(times, errorLatency)` and log it. -/
def callMeasureLatencies {ω S P ε : Type} (cat : Catalog ω S P ε) (servers : S)
    (times errorLatency : Int) (w : ω) (log : List (Call S P)) : Ran S ω (Call S P) :=
  ⟨(cat.MeasureLatencies servers times errorLatency w).1,
    (cat.MeasureLatencies servers times errorLatency w).2,
    log ++ [Call.MeasureLatencies servers times errorLatency]⟩

/-- Perform `servers.First()` and log it. -/
def callFirst {ω S P ε : Type} (cat : Catalog ω S P ε) (servers : S) (w : ω)
    (log : List (Call S P)) : Ran (Option P) ω (Call S P) :=
  ⟨(cat.First servers w).1, (cat.First servers w).2, log ++ [Call.First servers]⟩

/-- The argument of a `log.Fatalf` call in `SelectServer`: the error of the
failed fetch (`%v`) or the requested identifier (`%d`). -/
abbrev SelectFatal (ε : Type) := Fatalf (ε ⊕ Nat)

/-- Go `func (client *Client) SelectServer(opts *Opts) (selected *Server)`.
The returned pointer is `none` for nil. -/
def SelectServer {ω S P ε : Type} (cat : Catalog ω S P ε) (opts : Opts) (w : ω)
    (log : List (Call S P)) : Ran (Outcome (SelectFatal ε) (Option P)) ω (Call S P) :=
  if opts.Server ≠ 0 then
    -- servers, err := client.AllServers()
    let a := callAllServers cat w log
    match a.value with
    | Except.error err =>
      ⟨Outcome.fatal ⟨"Failed to load server list: %v\n", Sum.inl err⟩, a.state, a.calls⟩
    | Except.ok servers =>
      -- selected = servers.Find(opts.Server)
      let f := callFind cat servers opts.Server a.state a.calls
      match f.value with
      | none => ⟨Outcome.fatal ⟨"Server not found: %d\n", Sum.inr opts.Server⟩, f.state, f.calls⟩
      | some selected =>
        let m := callMeasureLatency cat selected cat.DefaultLatencyMeasureTimes
          cat.DefaultErrorLatency f.state f.calls
        ⟨Outcome.returned (some selected), m.state, m.calls⟩
  else
    -- servers, err := client.ClosestServers()
    let c := callClosestServers cat w log
    match c.value with
    | Except.error err =>
      ⟨Outcome.fatal ⟨"Failed to load server list: %v\n", Sum.inl err⟩, c.state, c.calls⟩
    | Except.ok servers =>
      let m := callMeasureLatencies cat servers cat.DefaultLatencyMeasureTimes
        cat.DefaultErrorLatency c.state c.calls
      let f := callFirst cat m.value m.state m.calls
      ⟨Outcome.returned f.value, f.state, f.calls⟩

/-- Whether a logged call is a latency probe. -/
def Call.isProbe {S P : Type} : Call S P → Bool
  | Call.MeasureLatency _ _ _ => true
  | Call.MeasureLatencies _ _ _ => true
  | _ => false

/-- Whether a logged call belongs to the explicit branch of `SelectServer`:
`AllServers`, `Find` or the single-server `MeasureLatency`. -/
def Call.onExplicitPath {S P : Type} : Call S P → Bool
  | Call.AllServers => true
  | Call.Find _ _ => true
  | Call.MeasureLatency _ _ _ => true
  | _ => false

/-- Whether a logged call belongs to the automatic branch of `SelectServer`:
`ClosestServers`, `MeasureLatencies` or `First`. -/
def Call.onAutomaticPath {S P : Type} : Call S P → Bool
  | Call.ClosestServers => true
  | Call.MeasureLatencies _ _ _ => true
  | Call.First _ => true
  | _ => false

/-- Modelled from the spec: a catalogue with the behaviour of spec §4.3 and
§4.4, whose code is outside `client.go`.  A server is its identifier, a set is
the list of identifiers in directory order, the world is the list of measured
latency fields written so far.  `directory` and `closest` are the outcomes of
the two fetches, `rtt id` is the round trip of server `id` (`none` when every
attempt fails, so the error sentinel is used).  `Find` is the exact lookup by
identifier, `MeasureLatencies` probes every member and orders the set
ascending by the result with a stable sort, `First` is the first entry or
nil. -/
def specCatalog (directory closest : Except String (List Nat)) (rtt : Nat → Option Int) :
    Catalog (List (Nat × Int)) (List Nat) Nat String :=
  { AllServers := fun w => (directory, w)
    ClosestServers := fun w => (closest, w)
    Find := fun servers id w => (servers.find? (fun s => s == id), w)
    MeasureLatency := fun s _ e w => ((rtt s).getD e, w ++ [(s, (rtt s).getD e)])
    MeasureLatencies := fun servers _ e w =>
      (servers.insertionSort (fun a b => (rtt a).getD e ≤ (rtt b).getD e),
        w ++ servers.map (fun s => (s, (rtt s).getD e)))
    First := fun servers w => (servers.head?, w)
    DefaultLatencyMeasureTimes := 4
    DefaultErrorLatency := 3600000 }

/-- Round trips of the scenario directory, in milliseconds: 50 for server 1,
10 for server 12345, unreachable for every other server. -/
def scenarioRtt : Nat → Option Int
  | 1 => some 50
  | 12345 => some 10
  | _ => none

/-- The three-server directory of the scenarios. -/
def scenarioCatalog : Catalog (List (Nat × Int)) (List Nat) Nat String :=
  specCatalog (Except.ok [777, 1, 12345]) (Except.ok [1, 12345, 777]) scenarioRtt

/-- The scenario directory when the closest filter yields no server. -/
def emptyClosestCatalog : Catalog (List (Nat × Int)) (List Nat) Nat String :=
  specCatalog (Except.ok [777, 1, 12345]) (Except.ok []) scenarioRtt

/-- The scenario directory when the directory fetch fails. -/
def unreachableCatalog : Catalog (List (Nat × Int)) (List Nat) Nat String :=
  specCatalog (Except.error "timeout") (Except.error "timeout") scenarioRtt

/-- Options selecting server `id` (`0` for automatic mode). -/
def optsFor (id : Nat) : Opts :=
  ⟨10, "", false, id⟩

/-! ## Theorems: response layer -/

/-- The call log of `ReadContent` is the read followed by the close, whatever
the two calls return. -/
theorem ReadContent_calls_eq {σ ε : Type} (resp : Response σ ε) (s : σ) (log : List RespCall) :
    (ReadContent resp s log).calls = log ++ [RespCall.ReadAll, RespCall.Close] := by
  unfold ReadContent callClose callReadAll
  cases h1 : (resp.Body.ReadAll s).1.2 <;>
    cases h2 : (resp.Body.Close (resp.Body.ReadAll s).2).1 <;> simp [h1, h2]

/-- The stream state after `ReadContent` is the state after the read and then
the close. -/
theorem ReadContent_state_eq {σ ε : Type} (resp : Response σ ε) (s : σ) (log : List RespCall) :
    (ReadContent resp s log).state = (resp.Body.Close (resp.Body.ReadAll s).2).2 := by
  unfold ReadContent callClose callReadAll
  cases h1 : (resp.Body.ReadAll s).1.2 <;>
    cases h2 : (resp.Body.Close (resp.Body.ReadAll s).2).1 <;> simp [h1, h2]

/-- The value returned by `ReadContent`, by cases on the two outcomes. -/
theorem ReadContent_value_eq {σ ε : Type} (resp : Response σ ε) (s : σ) (log : List RespCall) :
    (ReadContent resp s log).value =
      match (resp.Body.ReadAll s).1.2, (resp.Body.Close (resp.Body.ReadAll s).2).1 with
      | some err, _ => (none, some err)
      | none, some cerr => (some (resp.Body.ReadAll s).1.1, some cerr)
      | none, none => (some (resp.Body.ReadAll s).1.1, none) := by
  unfold ReadContent callClose callReadAll
  cases h1 : (resp.Body.ReadAll s).1.2 <;>
    cases h2 : (resp.Body.Close (resp.Body.ReadAll s).2).1 <;> simp [h1, h2]

/-- C6: the result of `ReadContent` is determined by the read and close
outcomes.  If the read fails, the read error is returned with no content,
whatever `Close` returned; if the read succeeds and `Close` fails, the content
read is returned together with the close error; if both succeed, the content
is returned with no error. -/
theorem ReadContent_result {σ ε : Type} (resp : Response σ ε) (s : σ) (log : List RespCall) :
    (∀ err : ε, (resp.Body.ReadAll s).1.2 = some err →
      (ReadContent resp s log).value = (none, some err)) ∧
    (∀ cerr : ε, (resp.Body.ReadAll s).1.2 = none →
      (resp.Body.Close (resp.Body.ReadAll s).2).1 = some cerr →
      (ReadContent resp s log).value = (some (resp.Body.ReadAll s).1.1, some cerr)) ∧
    ((resp.Body.ReadAll s).1.2 = none →
      (resp.Body.Close (resp.Body.ReadAll s).2).1 = none →
      (ReadContent resp s log).value = (some (resp.Body.ReadAll s).1.1, none)) := by
  refine ⟨?_, ?_, ?_⟩
  · intro err h1
    rw [ReadContent_value_eq, h1]
  · intro cerr h1 h2
    rw [ReadContent_value_eq, h1, h2]
  · intro h1 h2
    rw [ReadContent_value_eq, h1, h2]

/-- Witness for C6: a failed read with a failed close, a good read with a
failed close, and a good read with a good close. -/
theorem ReadContent_result_witness :
    (ReadContent (scriptedBody [1, 2] (some "reset") (some "busy")) 0 []).value
        = (none, some "reset") ∧
      (ReadContent (scriptedBody [1, 2] none (some "busy")) 0 []).value
        = (some [1, 2], some "busy") ∧
      (ReadContent (scriptedBody [1, 2] none none) 0 []).value = (some [1, 2], none) :=
  ⟨(ReadContent_result (scriptedBody [1, 2] (some "reset") (some "busy")) 0 []).1 "reset" rfl,
    (ReadContent_result (scriptedBody [1, 2] none (some "busy")) 0 []).2.1 "busy" rfl rfl,
    (ReadContent_result (scriptedBody [1, 2] none none) 0 []).2.2 rfl rfl⟩

/-- C7: for every response and every outcome of the read, one `ReadContent`
call performs the read and then exactly one `Close` on the body, in that
order and before it returns: it extends the call log by the read followed by
the close, the close count grows by one, and the stream is left in the state
that `Close` produced from the state after the read. -/
theorem ReadContent_closes_once {σ ε : Type} (resp : Response σ ε) (s : σ)
    (log : List RespCall) :
    (ReadContent resp s log).calls = log ++ [RespCall.ReadAll, RespCall.Close] ∧
      closeCount (ReadContent resp s log).calls = closeCount log + 1 ∧
      (ReadContent resp s log).state = (resp.Body.Close (resp.Body.ReadAll s).2).2 := by
  refine ⟨ReadContent_calls_eq resp s log, ?_, ReadContent_state_eq resp s log⟩
  rw [ReadContent_calls_eq]
  simp [closeCount, List.count_append]

/-- C8 fails as stated: two `ReadContent` calls on one response whose read and
close both succeed invoke `Close` twice, not once. -/
theorem ReadContentTwice_double_close :
    ¬ (closeCount (ReadContentTwice (scriptedBody [1, 2] none none) 0 []).calls = 1) ∧
      (ReadContentTwice (scriptedBody [1, 2] none none) 0 []).state = 2 := by
  decide

/-- C8 as amended: every `ReadContent` call closes the body once, so two calls
on the same response invoke `Close` exactly twice in total, the second time
on the stream state left by the first call. -/
theorem ReadContentTwice_closes_twice {σ ε : Type} (resp : Response σ ε) (s : σ)
    (log : List RespCall) :
    closeCount (ReadContentTwice resp s log).calls = closeCount log + 2 ∧
      (ReadContentTwice resp s log).calls =
        log ++ [RespCall.ReadAll, RespCall.Close, RespCall.ReadAll, RespCall.Close] := by
  unfold ReadContentTwice
  simp only [ReadContent_calls_eq]
  simp [closeCount, List.count_append]

/-- C10: `ReadXML` returns the error of `ReadContent` without calling the
decoder and without changing `out`, also when the body was read completely
and only `Close` failed; when `ReadContent` reports no error, the returned
error and the decoded value are those of `xml.Unmarshal` on the whole content
read from the body. -/
theorem ReadXML_result {σ τ ε : Type} (xml : Decoder τ ε) (resp : Response σ ε) (out : τ)
    (s : σ) (log : List RespCall) :
    (∀ err : ε, (ReadContent resp s log).value.2 = some err →
      (ReadXML xml resp out s log).err = some err ∧
      (ReadXML xml resp out s log).out = out ∧
      (ReadXML xml resp out s log).calls = log ++ [RespCall.ReadAll, RespCall.Close]) ∧
    (∀ cerr : ε, (resp.Body.ReadAll s).1.2 = none →
      (resp.Body.Close (resp.Body.ReadAll s).2).1 = some cerr →
      (ReadXML xml resp out s log).err = some cerr ∧
      (ReadXML xml resp out s log).out = out ∧
      (ReadXML xml resp out s log).calls = log ++ [RespCall.ReadAll, RespCall.Close]) ∧
    ((ReadContent resp s log).value.2 = none →
      (ReadXML xml resp out s log).err = (xml.Unmarshal (resp.Body.ReadAll s).1.1 out).1 ∧
      (ReadXML xml resp out s log).out = (xml.Unmarshal (resp.Body.ReadAll s).1.1 out).2 ∧
      (ReadXML xml resp out s log).calls =
        log ++ [RespCall.ReadAll, RespCall.Close,
          RespCall.Unmarshal (resp.Body.ReadAll s).1.1]) := by
  have hv := ReadContent_value_eq resp s log
  have hc := ReadContent_calls_eq resp s log
  refine ⟨?_, ?_, ?_⟩
  · intro err h
    simp [ReadXML, h, hc]
  · intro cerr h1 h2
    rw [h1, h2] at hv
    have h : (ReadContent resp s log).value.2 = some cerr := by rw [hv]
    simp [ReadXML, h, hc]
  · intro h
    cases h1 : (resp.Body.ReadAll s).1.2 with
    | some e => rw [h1] at hv; rw [hv] at h; simp at h
    | none =>
      cases h2 : (resp.Body.Close (resp.Body.ReadAll s).2).1 with
      | some ce => rw [h1, h2] at hv; rw [hv] at h; simp at h
      | none =>
        rw [h1, h2] at hv
        have h3 : (ReadContent resp s log).value.1 = some (resp.Body.ReadAll s).1.1 := by
          rw [hv]
        simp [ReadXML, h, h3, hc]

/-- Witness for C10: a failed read, a good read with a failed close, and a
good read with a good close, decoded by the test decoder from `out = 7`. -/
theorem ReadXML_result_witness :
    ((ReadXML scriptedDecoder (scriptedBody [1, 2] (some "reset") none) 7 0 []).err
        = some "reset" ∧
      (ReadXML scriptedDecoder (scriptedBody [1, 2] (some "reset") none) 7 0 []).out = 7 ∧
      (ReadXML scriptedDecoder (scriptedBody [1, 2] (some "reset") none) 7 0 []).calls
        = [RespCall.ReadAll, RespCall.Close]) ∧
    ((ReadXML scriptedDecoder (scriptedBody [1, 2] none (some "busy")) 7 0 []).err
        = some "busy" ∧
      (ReadXML scriptedDecoder (scriptedBody [1, 2] none (some "busy")) 7 0 []).out = 7 ∧
      (ReadXML scriptedDecoder (scriptedBody [1, 2] none (some "busy")) 7 0 []).calls
        = [RespCall.ReadAll, RespCall.Close]) ∧
    ((ReadXML scriptedDecoder (scriptedBody [1, 2] none none) 7 0 []).err = none ∧
      (ReadXML scriptedDecoder (scriptedBody [1, 2] none none) 7 0 []).out = 2 ∧
      (ReadXML scriptedDecoder (scriptedBody [1, 2] none none) 7 0 []).calls
        = [RespCall.ReadAll, RespCall.Close, RespCall.Unmarshal [1, 2]]) :=
  ⟨(ReadXML_result scriptedDecoder (scriptedBody [1, 2] (some "reset") none) 7 0 []).1
      "reset" rfl,
    (ReadXML_result scriptedDecoder (scriptedBody [1, 2] none (some "busy")) 7 0 []).2.1
      "busy" rfl rfl,
    (ReadXML_result scriptedDecoder (scriptedBody [1, 2] none none) 7 0 []).2.2 rfl⟩

/-! ## Theorems: `NewClient` -/

/-- `NewClient` never reaches its `log.Fatalf`: the address assigned to
`LocalAddr` is a pointer to a fresh `net.IPAddr`, which is not the nil
interface value whatever `net.ParseIP` returned. -/
theorem NewClient_not_fatal (ParseIP : String → Option (List Nat)) (opts : Opts) :
    (NewClient ParseIP opts).isFatal = false := by
  unfold NewClient
  by_cases h : opts.Interface.length = 0 <;> simp [h, Outcome.isFatal]

/-- C9 on the code: for the non-empty interface text `not-an-ip`, and whatever
`net.ParseIP` yields for it (nil included), `NewClient` does not end in
`log.Fatalf`; it returns a client whose dialer is bound to an `IPAddr` holding
the parse result.  For the empty interface text a client with no local
address is returned. -/
theorem NewClient_invalid_interface (ParseIP : String → Option (List Nat)) (timeout : Int)
    (secure : Bool) (id : Nat) :
    NewClient ParseIP ⟨timeout, "not-an-ip", secure, id⟩ =
        Outcome.returned
          ⟨⟨⟨timeout, timeout, some ⟨ParseIP "not-an-ip"⟩⟩, timeout, timeout⟩, timeout,
            ⟨timeout, "not-an-ip", secure, id⟩⟩ ∧
      NewClient (fun _ => none) ⟨timeout, "not-an-ip", secure, id⟩ =
        Outcome.returned
          ⟨⟨⟨timeout, timeout, some ⟨none⟩⟩, timeout, timeout⟩, timeout,
            ⟨timeout, "not-an-ip", secure, id⟩⟩ ∧
      NewClient ParseIP ⟨timeout, "", secure, id⟩ =
        Outcome.returned
          ⟨⟨⟨timeout, timeout, none⟩, timeout, timeout⟩, timeout,
            ⟨timeout, "", secure, id⟩⟩ := by
  have h1 : ("not-an-ip" : String).length ≠ 0 := by decide
  have h2 : ("" : String).length = 0 := by decide
  refine ⟨?_, ?_, ?_⟩ <;> simp [NewClient, h1, h2]

/-! ## Theorems: transport -/

/-- A URL completed with a scheme no longer begins with `:`. -/
theorem HasPrefix_scheme (secure : Bool) (u : String) :
    HasPrefix (if secure then "https" ++ u else "http" ++ u) ":" = false := by
  cases secure <;> simp [HasPrefix, String.data_append]

/-- `NewRequest` on a URL that does not begin with `:` passes it on as is. -/
theorem NewRequest_plain {ω ρ β ν ε : Type} (h : HTTP ω ρ β ν ε) (b : Build) (client : Client)
    (method url : String) (body : Option β) (w : ω) (log : List (HttpCall ρ β))
    (hu : HasPrefix url ":" = false) :
    NewRequest h b client method url body w log =
      match h.NewRequest method url body with
      | Except.ok req =>
        ⟨Except.ok (h.HeaderSet req "User-Agent" (userAgent b)), w,
          log ++ [HttpCall.NewRequest method url body] ++
            [HttpCall.HeaderSet req "User-Agent" (userAgent b)]⟩
      | Except.error err => ⟨Except.error err, w, log ++ [HttpCall.NewRequest method url body]⟩ := by
  simp [NewRequest, hu]

/-- `NewRequest` on a URL that begins with `:` behaves as on the URL completed
with the scheme of the client. -/
theorem NewRequest_completed {ω ρ β ν ε : Type} (h : HTTP ω ρ β ν ε) (b : Build)
    (client : Client) (method u : String) (body : Option β) (w : ω)
    (log : List (HttpCall ρ β)) (hu : HasPrefix u ":" = true) :
    NewRequest h b client method u body w log =
      NewRequest h b client method (if client.opts.Secure then "https" ++ u else "http" ++ u)
        body w log := by
  have hs := HasPrefix_scheme client.opts.Secure u
  conv_rhs => unfold NewRequest
  simp only [hs]
  simp [NewRequest, hu]

/-- C5: for every URL `u` that begins with `:`, `NewRequest` builds the
request with `http.NewRequest` from `"https" ++ u` when the client is secure
and from `"http" ++ u` otherwise, and `Get` and `Post` dispatch the request
built from that completed URL: they behave as on the completed URL, it is the
only URL handed to `http.NewRequest`, and when `http.NewRequest` accepts it
the value and the network state they return are those of `client.Client.Do`
on the request built from it (with the headers set), which is the only
request handed to `Do`; when `http.NewRequest` rejects it, its error is
returned and nothing is dispatched. -/
theorem NewRequest_scheme {ω ρ β ν ε : Type} (h : HTTP ω ρ β ν ε) (b : Build)
    (client : Client) (method u bodyType : String) (body : Option β) (w : ω)
    (log : List (HttpCall ρ β)) (url : String) (hu : HasPrefix u ":" = true)
    (hurl : url = if client.opts.Secure then "https" ++ u else "http" ++ u) :
    (NewRequest h b client method u body w log).value =
        (h.NewRequest method url body).map
          (fun req => h.HeaderSet req "User-Agent" (userAgent b)) ∧
      requestedURLs (NewRequest h b client method u body w []).calls = [url] ∧
      Get h b client u w log = Get h b client url w log ∧
      Post h b client u bodyType body w log = Post h b client url bodyType body w log ∧
      requestedURLs (Get h b client u w []).calls = [url] ∧
      requestedURLs (Post h b client u bodyType body w []).calls = [url] ∧
      (∀ req, h.NewRequest "GET" url none = Except.ok req →
        dispatched (Get h b client u w []).calls =
          [h.HeaderSet req "User-Agent" (userAgent b)]) ∧
      (∀ req, h.NewRequest "POST" url body = Except.ok req →
        dispatched (Post h b client u bodyType body w []).calls =
          [h.HeaderSet (h.HeaderSet req "User-Agent" (userAgent b))
            "Content-Type" bodyType]) ∧
      (∀ req, h.NewRequest "GET" url none = Except.ok req →
        (Get h b client u w log).state =
            (h.Do client (h.HeaderSet req "User-Agent" (userAgent b)) w).2 ∧
          (Get h b client u w log).value =
            (match (h.Do client (h.HeaderSet req "User-Agent" (userAgent b)) w).1.2 with
              | some err => (none, some err)
              | none =>
                ((h.Do client (h.HeaderSet req "User-Agent" (userAgent b)) w).1.1, none)) ∧
          (Get h b client u w log).calls =
            log ++ [HttpCall.NewRequest "GET" url none,
              HttpCall.HeaderSet req "User-Agent" (userAgent b),
              HttpCall.Do (h.HeaderSet req "User-Agent" (userAgent b))]) ∧
      (∀ err, h.NewRequest "GET" url none = Except.error err →
        (Get h b client u w log).state = w ∧
          (Get h b client u w log).value = (none, some err) ∧
          (Get h b client u w log).calls = log ++ [HttpCall.NewRequest "GET" url none]) ∧
      (∀ req, h.NewRequest "POST" url body = Except.ok req →
        (Post h b client u bodyType body w log).state =
            (h.Do client
              (h.HeaderSet (h.HeaderSet req "User-Agent" (userAgent b))
                "Content-Type" bodyType) w).2 ∧
          (Post h b client u bodyType body w log).value =
            (h.Do client
              (h.HeaderSet (h.HeaderSet req "User-Agent" (userAgent b))
                "Content-Type" bodyType) w).1 ∧
          (Post h b client u bodyType body w log).calls =
            log ++ [HttpCall.NewRequest "POST" url body,
              HttpCall.HeaderSet req "User-Agent" (userAgent b),
              HttpCall.HeaderSet (h.HeaderSet req "User-Agent" (userAgent b))
                "Content-Type" bodyType,
              HttpCall.Do
                (h.HeaderSet (h.HeaderSet req "User-Agent" (userAgent b))
                  "Content-Type" bodyType)]) ∧
      (∀ err, h.NewRequest "POST" url body = Except.error err →
        (Post h b client u bodyType body w log).state = w ∧
          (Post h b client u bodyType body w log).value = (none, some err) ∧
          (Post h b client u bodyType body w log).calls =
            log ++ [HttpCall.NewRequest "POST" url body]) := by
  have hs : HasPrefix url ":" = false := by
    rw [hurl]; exact HasPrefix_scheme client.opts.Secure u
  have hN : ∀ (m : String) (bd : Option β) (lg : List (HttpCall ρ β)),
      NewRequest h b client m u bd w lg = NewRequest h b client m url bd w lg := by
    intro m bd lg
    rw [hurl]; exact NewRequest_completed h b client m u bd w lg hu
  have hG : ∀ lg : List (HttpCall ρ β), Get h b client u w lg = Get h b client url w lg := by
    intro lg; simp only [Get, hN]
  have hP : ∀ lg : List (HttpCall ρ β),
      Post h b client u bodyType body w lg = Post h b client url bodyType body w lg := by
    intro lg; simp only [Post, hN]
  refine ⟨?_, ?_, hG log, hP log, ?_, ?_, ?_, ?_, ?_, ?_, ?_, ?_⟩
  · rw [hN, NewRequest_plain h b client method url body w log hs]
    cases h.NewRequest method url body <;> simp [Except.map]
  · rw [hN, NewRequest_plain h b client method url body w [] hs]
    cases h.NewRequest method url body <;> simp [requestedURLs]
  · rw [hG]
    simp only [Get, NewRequest_plain h b client "GET" url none w [] hs]
    cases h.NewRequest "GET" url none with
    | error e => simp [requestedURLs]
    | ok req =>
      cases hd : (h.Do client (h.HeaderSet req "User-Agent" (userAgent b)) w).1.2 <;>
        simp [requestedURLs, callDo, hd]
  · rw [hP]
    simp only [Post, NewRequest_plain h b client "POST" url body w [] hs]
    cases h.NewRequest "POST" url body <;> simp [requestedURLs, callDo]
  · intro req hreq
    rw [hG]
    simp only [Get, NewRequest_plain h b client "GET" url none w [] hs, hreq]
    cases hd : (h.Do client (h.HeaderSet req "User-Agent" (userAgent b)) w).1.2 <;>
      simp [dispatched, callDo, hd]
  · intro req hreq
    rw [hP]
    simp only [Post, NewRequest_plain h b client "POST" url body w [] hs, hreq]
    simp [dispatched, callDo]
  · intro req hreq
    rw [hG]
    simp only [Get, NewRequest_plain h b client "GET" url none w log hs, hreq]
    cases hd : (h.Do client (h.HeaderSet req "User-Agent" (userAgent b)) w).1.2 <;>
      simp [callDo, hd]
  · intro err herr
    rw [hG]
    simp only [Get, NewRequest_plain h b client "GET" url none w log hs, herr]
    simp
  · intro req hreq
    rw [hP]
    simp only [Post, NewRequest_plain h b client "POST" url body w log hs, hreq]
    simp [callDo]
  · intro err herr
    rw [hP]
    simp only [Post, NewRequest_plain h b client "POST" url body w log hs, herr]
    simp

/-- Witness for C5 (scenario E): `://example.com/path` on a secure client is
requested as `https://example.com/path`, and that is the URL that reaches the
network and is answered, for `Get` and for `Post`; on a client that is not
secure it is `http://example.com/path`. -/
theorem NewRequest_scheme_witness :
    HasPrefix "://example.com/path" ":" = true ∧
      requestedURLs (Get plainHTTP plainBuild (plainClient true) "://example.com/path" [] []).calls
        = ["https://example.com/path"] ∧
      requestedURLs (Post plainHTTP plainBuild (plainClient true) "://example.com/path"
          "text/plain" none [] []).calls = ["https://example.com/path"] ∧
      ((Get plainHTTP plainBuild (plainClient true) "://example.com/path" [] []).state
          = ["https://example.com/path"] ∧
        (Get plainHTTP plainBuild (plainClient true) "://example.com/path" [] []).value
          = (some "https://example.com/path", none)) ∧
      ((Post plainHTTP plainBuild (plainClient true) "://example.com/path" "text/plain"
            none [] []).state = ["https://example.com/path"] ∧
        (Post plainHTTP plainBuild (plainClient true) "://example.com/path" "text/plain"
            none [] []).value = (some "https://example.com/path", none)) ∧
      (Get plainHTTP plainBuild (plainClient false) "://example.com/path" [] []).state
        = ["http://example.com/path"] :=
  ⟨by decide,
    (NewRequest_scheme plainHTTP plainBuild (plainClient true) "GET" "://example.com/path"
      "text/plain" none [] [] "https://example.com/path" (by decide) (by decide)).2.2.2.2.1,
    (NewRequest_scheme plainHTTP plainBuild (plainClient true) "GET" "://example.com/path"
      "text/plain" none [] [] "https://example.com/path" (by decide) (by decide)).2.2.2.2.2.1,
    ⟨((NewRequest_scheme plainHTTP plainBuild (plainClient true) "GET" "://example.com/path"
        "text/plain" none [] [] "https://example.com/path" (by decide)
        (by decide)).2.2.2.2.2.2.2.2.1 ⟨"GET", "https://example.com/path", []⟩ rfl).1,
      ((NewRequest_scheme plainHTTP plainBuild (plainClient true) "GET" "://example.com/path"
        "text/plain" none [] [] "https://example.com/path" (by decide)
        (by decide)).2.2.2.2.2.2.2.2.1 ⟨"GET", "https://example.com/path", []⟩ rfl).2.1⟩,
    ⟨((NewRequest_scheme plainHTTP plainBuild (plainClient true) "GET" "://example.com/path"
        "text/plain" none [] [] "https://example.com/path" (by decide)
        (by decide)).2.2.2.2.2.2.2.2.2.2.1 ⟨"POST", "https://example.com/path", []⟩ rfl).1,
      ((NewRequest_scheme plainHTTP plainBuild (plainClient true) "GET" "://example.com/path"
        "text/plain" none [] [] "https://example.com/path" (by decide)
        (by decide)).2.2.2.2.2.2.2.2.2.2.1 ⟨"POST", "https://example.com/path", []⟩ rfl).2.1⟩,
    ((NewRequest_scheme plainHTTP plainBuild (plainClient false) "GET" "://example.com/path"
      "text/plain" none [] [] "http://example.com/path" (by decide)
      (by decide)).2.2.2.2.2.2.2.2.1 ⟨"GET", "http://example.com/path", []⟩ rfl).1⟩

/-! ## Theorems: `SelectServer` -/

/-- Automatic mode after a successful `ClosestServers`: the whole run. -/
theorem run_automatic_branch {ω S P ε : Type} (cat : Catalog ω S P ε) (opts : Opts)
    (w : ω) (log : List (Call S P)) (E : S) (h0 : opts.Server = 0)
    (hE : (cat.ClosestServers w).1 = Except.ok E) :
    SelectServer cat opts w log =
      ⟨Outcome.returned
          (cat.First
            (cat.MeasureLatencies E cat.DefaultLatencyMeasureTimes cat.DefaultErrorLatency
              (cat.ClosestServers w).2).1
            (cat.MeasureLatencies E cat.DefaultLatencyMeasureTimes cat.DefaultErrorLatency
              (cat.ClosestServers w).2).2).1,
        (cat.First
            (cat.MeasureLatencies E cat.DefaultLatencyMeasureTimes cat.DefaultErrorLatency
              (cat.ClosestServers w).2).1
            (cat.MeasureLatencies E cat.DefaultLatencyMeasureTimes cat.DefaultErrorLatency
              (cat.ClosestServers w).2).2).2,
        log ++ [Call.ClosestServers,
          Call.MeasureLatencies E cat.DefaultLatencyMeasureTimes cat.DefaultErrorLatency,
          Call.First
            (cat.MeasureLatencies E cat.DefaultLatencyMeasureTimes cat.DefaultErrorLatency
              (cat.ClosestServers w).2).1]⟩ := by
  simp [SelectServer, h0, callClosestServers, hE, callMeasureLatencies, callFirst]

/-- Explicit mode: the whole run, by cases on the fetch and the lookup. -/
theorem run_explicit_branch {ω S P ε : Type} (cat : Catalog ω S P ε) (opts : Opts)
    (w : ω) (log : List (Call S P)) (h0 : opts.Server ≠ 0) :
    SelectServer cat opts w log =
      match (cat.AllServers w).1 with
      | Except.error err =>
        ⟨Outcome.fatal ⟨"Failed to load server list: %v\n", Sum.inl err⟩,
          (cat.AllServers w).2, log ++ [Call.AllServers]⟩
      | Except.ok servers =>
        match (cat.Find servers opts.Server (cat.AllServers w).2).1 with
        | none =>
          ⟨Outcome.fatal ⟨"Server not found: %d\n", Sum.inr opts.Server⟩,
            (cat.Find servers opts.Server (cat.AllServers w).2).2,
            log ++ [Call.AllServers, Call.Find servers opts.Server]⟩
        | some selected =>
          ⟨Outcome.returned (some selected),
            (cat.MeasureLatency selected cat.DefaultLatencyMeasureTimes cat.DefaultErrorLatency
              (cat.Find servers opts.Server (cat.AllServers w).2).2).2,
            log ++ [Call.AllServers, Call.Find servers opts.Server,
              Call.MeasureLatency selected cat.DefaultLatencyMeasureTimes
                cat.DefaultErrorLatency]⟩ := by
  unfold SelectServer
  rw [if_pos h0]
  simp only [callAllServers, callFind, callMeasureLatency]
  cases (cat.AllServers w).1 with
  | error err => simp
  | ok servers =>
    cases (cat.Find servers opts.Server (cat.AllServers w).2).1 <;> simp

/-- C1: in automatic mode (`opts.Server == 0`), whenever `ClosestServers`
succeeds with a set `E`, `SelectServer` returns exactly
`First(MeasureLatencies(E, DefaultLatencyMeasureTimes, DefaultErrorLatency))`;
the calls it makes are `ClosestServers`, `MeasureLatencies` and `First`, in
that order, and none of `AllServers`, `Find`, `MeasureLatency`. -/
theorem SelectServer_automatic_returns_first {ω S P ε : Type} (cat : Catalog ω S P ε) (opts : Opts)
    (w : ω) (log : List (Call S P)) (E : S) (h0 : opts.Server = 0)
    (hE : (cat.ClosestServers w).1 = Except.ok E) :
    (SelectServer cat opts w log).value =
        Outcome.returned
          (cat.First
            (cat.MeasureLatencies E cat.DefaultLatencyMeasureTimes cat.DefaultErrorLatency
              (cat.ClosestServers w).2).1
            (cat.MeasureLatencies E cat.DefaultLatencyMeasureTimes cat.DefaultErrorLatency
              (cat.ClosestServers w).2).2).1 ∧
      (SelectServer cat opts w log).calls =
        log ++ [Call.ClosestServers,
          Call.MeasureLatencies E cat.DefaultLatencyMeasureTimes cat.DefaultErrorLatency,
          Call.First
            (cat.MeasureLatencies E cat.DefaultLatencyMeasureTimes cat.DefaultErrorLatency
              (cat.ClosestServers w).2).1] ∧
      ∀ c ∈ (SelectServer cat opts w []).calls, c.onExplicitPath = false := by
  refine ⟨?_, ?_, ?_⟩
  · rw [run_automatic_branch cat opts w log E h0 hE]
  · rw [run_automatic_branch cat opts w log E h0 hE]
  · rw [run_automatic_branch cat opts w [] E h0 hE]
    intro c hc
    simp at hc
    rcases hc with rfl | rfl | rfl <;> rfl

/-- Witness for C1 (scenario C): the closest set holds servers with round
trips 50, 10 and unreachable; the server with round trip 10 is returned. -/
theorem SelectServer_automatic_returns_first_witness :
    (optsFor 0).Server = 0 ∧
      (scenarioCatalog.ClosestServers []).1 = Except.ok [1, 12345, 777] ∧
      (SelectServer scenarioCatalog (optsFor 0) [] []).value = Outcome.returned (some 12345) ∧
      (SelectServer scenarioCatalog (optsFor 0) [] []).calls =
        [Call.ClosestServers, Call.MeasureLatencies [1, 12345, 777] 4 3600000,
          Call.First [12345, 1, 777]] :=
  ⟨rfl, rfl,
    (SelectServer_automatic_returns_first scenarioCatalog (optsFor 0) [] [] [1, 12345, 777] rfl rfl).1.trans
      (by decide),
    (SelectServer_automatic_returns_first scenarioCatalog (optsFor 0) [] [] [1, 12345, 777] rfl rfl).2.1.trans
      (by decide)⟩

/-- C2: in explicit mode (`opts.Server != 0`), whenever `AllServers` succeeds
with a set `E` and `Find(E, id)` yields a server `s`, `SelectServer` returns
that `s`, whatever `MeasureLatency` measures; the calls it makes are
`AllServers`, `Find(E, id)` and one `MeasureLatency(s,
DefaultLatencyMeasureTimes, DefaultErrorLatency)`, in that order, and none of
`ClosestServers`, `MeasureLatencies`, `First`. -/
theorem SelectServer_explicit_returns_found {ω S P ε : Type} (cat : Catalog ω S P ε) (opts : Opts)
    (w : ω) (log : List (Call S P)) (E : S) (s : P) (h0 : opts.Server ≠ 0)
    (hE : (cat.AllServers w).1 = Except.ok E)
    (hs : (cat.Find E opts.Server (cat.AllServers w).2).1 = some s) :
    (SelectServer cat opts w log).value = Outcome.returned (some s) ∧
      (SelectServer cat opts w log).calls =
        log ++ [Call.AllServers, Call.Find E opts.Server,
          Call.MeasureLatency s cat.DefaultLatencyMeasureTimes cat.DefaultErrorLatency] ∧
      (SelectServer cat opts w log).state =
        (cat.MeasureLatency s cat.DefaultLatencyMeasureTimes cat.DefaultErrorLatency
          (cat.Find E opts.Server (cat.AllServers w).2).2).2 ∧
      ∀ c ∈ (SelectServer cat opts w []).calls, c.onAutomaticPath = false := by
  refine ⟨?_, ?_, ?_, ?_⟩
  · rw [run_explicit_branch cat opts w log h0, hE]; simp only [hs]
  · rw [run_explicit_branch cat opts w log h0, hE]; simp only [hs]
  · rw [run_explicit_branch cat opts w log h0, hE]; simp only [hs]
  · rw [run_explicit_branch cat opts w [] h0, hE]; simp only [hs]
    intro c hc
    simp at hc
    rcases hc with rfl | rfl | rfl <;> rfl

/-- Witness for C2 (scenario A): server 777 is unreachable, so it has the
worst latency of the directory, and it is the one returned when requested. -/
theorem SelectServer_explicit_returns_found_witness :
    (optsFor 777).Server ≠ 0 ∧
      (scenarioCatalog.AllServers []).1 = Except.ok [777, 1, 12345] ∧
      (scenarioCatalog.Find [777, 1, 12345] 777 []).1 = some 777 ∧
      (SelectServer scenarioCatalog (optsFor 777) [] []).value = Outcome.returned (some 777) ∧
      (SelectServer scenarioCatalog (optsFor 777) [] []).calls =
        [Call.AllServers, Call.Find [777, 1, 12345] 777, Call.MeasureLatency 777 4 3600000] ∧
      (SelectServer scenarioCatalog (optsFor 777) [] []).state = [(777, 3600000)] :=
  ⟨by decide, rfl, by decide,
    (SelectServer_explicit_returns_found scenarioCatalog (optsFor 777) [] [] [777, 1, 12345] 777
      (by decide) rfl (by decide)).1,
    (SelectServer_explicit_returns_found scenarioCatalog (optsFor 777) [] [] [777, 1, 12345] 777
      (by decide) rfl (by decide)).2.1,
    (SelectServer_explicit_returns_found scenarioCatalog (optsFor 777) [] [] [777, 1, 12345] 777
      (by decide) rfl (by decide)).2.2.1.trans (by decide)⟩

/-- C3: in explicit mode (`opts.Server != 0`), `SelectServer` ends in
`log.Fatalf` if and only if the `AllServers` fetch fails or `Find` returns no
server for the requested identifier; in a fatal run no latency probe is
called, and in every other run a server is returned. -/
theorem SelectServer_fatal_iff_fetch_or_lookup {ω S P ε : Type} (cat : Catalog ω S P ε)
    (opts : Opts) (w : ω) (h0 : opts.Server ≠ 0) :
    ((SelectServer cat opts w []).value.isFatal = true ↔
        ((∃ err, (cat.AllServers w).1 = Except.error err) ∨
          ∃ E, (cat.AllServers w).1 = Except.ok E ∧
            (cat.Find E opts.Server (cat.AllServers w).2).1 = none)) ∧
      ((SelectServer cat opts w []).value.isFatal = true →
        ∀ c ∈ (SelectServer cat opts w []).calls, c.isProbe = false) ∧
      ((SelectServer cat opts w []).value.isFatal = false →
        ∃ s, (SelectServer cat opts w []).value = Outcome.returned (some s)) := by
  rw [run_explicit_branch cat opts w [] h0]
  cases hA : (cat.AllServers w).1 with
  | error err => simp [Outcome.isFatal, Call.isProbe]
  | ok servers =>
    cases hF : (cat.Find servers opts.Server (cat.AllServers w).2).1 with
    | none => simp [Outcome.isFatal, Call.isProbe, hF]
    | some selected => simp [Outcome.isFatal, hF]

/-- Witness for C3 (scenario B): identifier 99999 is absent from the
three-server directory, and a directory whose fetch fails. -/
theorem SelectServer_fatal_iff_fetch_or_lookup_witness :
    (optsFor 99999).Server ≠ 0 ∧
      (SelectServer scenarioCatalog (optsFor 99999) [] []).value.isFatal = true ∧
      (∀ c ∈ (SelectServer scenarioCatalog (optsFor 99999) [] []).calls, c.isProbe = false) ∧
      (SelectServer unreachableCatalog (optsFor 99999) [] []).value.isFatal = true ∧
      ∃ s, (SelectServer scenarioCatalog (optsFor 1) [] []).value = Outcome.returned (some s) :=
  ⟨by decide,
    (SelectServer_fatal_iff_fetch_or_lookup scenarioCatalog (optsFor 99999) [] (by decide)).1.mpr
      (Or.inr ⟨[777, 1, 12345], rfl, by decide⟩),
    (SelectServer_fatal_iff_fetch_or_lookup scenarioCatalog (optsFor 99999) [] (by decide)).2.1
      (by decide),
    (SelectServer_fatal_iff_fetch_or_lookup unreachableCatalog (optsFor 99999) [] (by decide)).1.mpr
      (Or.inl ⟨"timeout", rfl⟩),
    (SelectServer_fatal_iff_fetch_or_lookup scenarioCatalog (optsFor 1) [] (by decide)).2.2
      (by decide)⟩

/-- C4 on the code: in automatic mode (`opts.Server == 0`), whenever
`ClosestServers` succeeds, with an empty set or not, `SelectServer` does not
end in `log.Fatalf`: it hands the result of `First` back to the caller. -/
theorem SelectServer_empty_set_not_fatal {ω S P ε : Type} (cat : Catalog ω S P ε)
    (opts : Opts) (w : ω) (log : List (Call S P)) (E : S) (h0 : opts.Server = 0)
    (hE : (cat.ClosestServers w).1 = Except.ok E) :
    (SelectServer cat opts w log).value.isFatal = false ∧
      ∃ r, (SelectServer cat opts w log).value = Outcome.returned r := by
  rw [run_automatic_branch cat opts w log E h0 hE]
  exact ⟨rfl, _, rfl⟩

/-- Witness for C4 (scenario D): the closest filter yields the empty set and
`SelectServer` returns nil instead of ending in `log.Fatalf`. -/
theorem SelectServer_empty_set_not_fatal_witness :
    (optsFor 0).Server = 0 ∧
      (emptyClosestCatalog.ClosestServers []).1 = Except.ok [] ∧
      (SelectServer emptyClosestCatalog (optsFor 0) [] []).value.isFatal = false ∧
      (SelectServer emptyClosestCatalog (optsFor 0) [] []).value = Outcome.returned none ∧
      (SelectServer emptyClosestCatalog (optsFor 0) [] []).calls =
        [Call.ClosestServers, Call.MeasureLatencies [] 4 3600000, Call.First []] :=
  ⟨rfl, rfl,
    (SelectServer_empty_set_not_fatal emptyClosestCatalog (optsFor 0) [] [] [] rfl rfl).1,
    by decide, by decide⟩

end Speedtest
